import Mathlib

/-!
Verification of the chimera orchestration service against its specification.

Shallow embedding of the relevant code:
- `app/clients/base_llm_client.py` (rate limiter, circuit breaker),
- `app/workers/conversation_manager.py` (conversation loop record writes,
  repetition detection, turn processing),
- `app/models/conversation.py` (`Conversation.add_turn`),
- `app/storage/redis_state.py` (state merge, locks),
- `app/kafka/producer.py` (`send_event`),
- `app/kafka/consumer.py` / `app/kafka/event_router.py` (message routing, DLQ).

Time values (Python `time.time()` floats) are modelled as rationals.
Python dicts that the manager reads and writes through JSON are modelled as
association lists of string keys.
-/

namespace Chimera

/-! ## JSON-ish values and dict operations -/

/-- A JSON-like value, the shape of the conversation-state dicts stored in Redis. -/
inductive JVal where
  | jstr : String → JVal
  | jnum : ℚ → JVal
  | jbool : Bool → JVal
  | jnull : JVal
  | jarr : List JVal → JVal
  | jobj : List (String × JVal) → JVal
deriving BEq

/-- A Python dict with string keys, as an association list (insertion order kept). -/
abbrev Dict (α : Type) := List (String × α)

/-- Python `d[k] = v` : replace the value in place if the key exists, else append. -/
def setEntry {α : Type} : Dict α → String → α → Dict α
  | [], k, v => [(k, v)]
  | (k', v') :: rest, k, v =>
      if k' = k then (k', v) :: rest else (k', v') :: setEntry rest k v

/-- Python `d.update(u)` (also `{**d, ...}`): set every key of `u` in `d`, left to right. -/
def dictUpdate {α : Type} (d : Dict α) (u : Dict α) : Dict α :=
  u.foldl (fun acc kv => setEntry acc kv.1 kv.2) d

theorem lookup_setEntry_self {α : Type} (d : Dict α) (k : String) (v : α) :
    (setEntry d k v).lookup k = some v := by
  induction d with
  | nil => simp [setEntry, List.lookup]
  | cons kv rest ih =>
      obtain ⟨k', v'⟩ := kv
      by_cases h : k' = k
      · subst h
        simp [setEntry, List.lookup]
      · have hb : (k == k') = false := beq_eq_false_iff_ne.mpr fun hh => h hh.symm
        simp [setEntry, h, List.lookup, hb, ih]

theorem lookup_setEntry_other {α : Type} (d : Dict α) (k k₂ : String) (v : α)
    (hne : k₂ ≠ k) : (setEntry d k v).lookup k₂ = d.lookup k₂ := by
  induction d with
  | nil =>
      have hb : (k₂ == k) = false := beq_eq_false_iff_ne.mpr hne
      simp [setEntry, List.lookup, hb]
  | cons kv rest ih =>
      obtain ⟨k', v'⟩ := kv
      by_cases h : k' = k
      · subst h
        have hb : (k₂ == k') = false := beq_eq_false_iff_ne.mpr hne
        simp [setEntry, List.lookup, hb]
      · cases hb : k₂ == k' <;> simp [setEntry, h, List.lookup, hb, ih]

/-! ## Rate limiter: `BaseLLMClient._check_rate_limit` -/

/-- `_check_rate_limit`: drop tokens at or before `now - window`, refuse when the
remaining count reaches the limit, otherwise append the current time and admit.
Returns the new token list and the admission decision. -/
def checkRateLimit (tokens : List ℚ) (now window : ℚ) (limit : ℕ) :
    List ℚ × Bool :=
  let kept := tokens.filter (fun t => t > now - window)
  if kept.length ≥ limit then (kept, false)
  else (kept ++ [now], true)

/-! ## Circuit breaker: `BaseLLMClient._check_circuit_breaker` and friends -/

/-- Circuit-breaker fields of `BaseLLMClient`. -/
structure BreakerState where
  failures : ℕ
  lastFailure : ℚ
  isOpen : Bool
deriving BEq

/-- `_check_circuit_breaker`: when the breaker is open and strictly more than
`timeoutSecs` passed since the last failure, close it and zero the counter; the
returned flag is whether the call proceeds (`false` means `CircuitBreakerError`). -/
def checkCircuitBreaker (s : BreakerState) (now timeoutSecs : ℚ) :
    BreakerState × Bool :=
  let s' :=
    if s.isOpen ∧ now - s.lastFailure > timeoutSecs then
      { s with isOpen := false, failures := 0 }
    else s
  (s', !s'.isOpen)

/-- `_record_failure`: bump the counter, stamp the failure time, open the breaker
once the counter reaches the threshold. -/
def recordFailure (s : BreakerState) (now : ℚ) (threshold : ℕ) : BreakerState :=
  let f := s.failures + 1
  { failures := f, lastFailure := now,
    isOpen := if f ≥ threshold then true else s.isOpen }

/-- `_record_success`: zero the failure counter (the open flag is untouched). -/
def recordSuccess (s : BreakerState) : BreakerState :=
  { s with failures := 0 }

/-! ## ConversationManager record writes -/

/-- The initial record written by `start_new_conversation` (its `metadata` part). -/
def initialMetadata (createdAt : ℚ) : Dict JVal :=
  [("status", .jstr "started"), ("created_at", .jnum createdAt),
   ("total_turns", .jnum 0), ("total_tokens", .jnum 0),
   ("duration_seconds", .jnum 0), ("models_used", .jarr [])]

/-- The full record written by `start_new_conversation`. -/
def initialConversationState (cid title source url : String) (createdAt : ℚ) :
    Dict JVal :=
  [("conversation_id", .jstr cid), ("topic", .jstr title),
   ("source", .jstr source), ("url", .jstr url), ("turns", .jarr []),
   ("metadata", .jobj (initialMetadata createdAt))]

/-- Metadata written by the normal exit of `_process_conversation`:
`{**state_metadata, "status": "completed", "completed_at": t, "duration_seconds": d}`. -/
def completedMetadata (meta : Dict JVal) (endTime duration : ℚ) : Dict JVal :=
  dictUpdate meta
    [("status", .jstr "completed"), ("completed_at", .jnum endTime),
     ("duration_seconds", .jnum duration)]

/-- Metadata written by the except-branch of `_process_conversation`. -/
def errorMetadata (e : String) : Dict JVal :=
  [("status", .jstr "error"), ("error", .jstr e)]

/-- Metadata written by `stop_conversation`. -/
def stoppedMetadata : Dict JVal :=
  [("status", .jstr "stopped")]

/-- Metadata written on a successful turn by `_process_turn`:
`{**state_metadata, "total_turns": …, "total_tokens": …, "models_used": …,
"status": "in_progress"}`. -/
def inProgressMetadata (meta : Dict JVal) (totalTurns totalTokens : ℕ)
    (modelsUsed : List String) : Dict JVal :=
  dictUpdate meta
    [("total_turns", .jnum totalTurns), ("total_tokens", .jnum totalTokens),
     ("models_used", .jarr (modelsUsed.map .jstr)), ("status", .jstr "in_progress")]

/-- The `metadata.status` string of a metadata dict, when present. -/
def metaStatus (meta : Dict JVal) : Option String :=
  match meta.lookup "status" with
  | some (.jstr s) => some s
  | _ => none

/-! ## Redis state store: `RedisStateManager` -/

/-- `_validate_conversation_state`: the record must contain `conversation_id`,
`topic` and `turns`, and `turns` must be a list. -/
def validateConversationState (state : Dict JVal) : Bool :=
  (state.lookup "conversation_id").isSome &&
  (state.lookup "topic").isSome &&
  (match state.lookup "turns" with
   | some (.jarr _) => true
   | _ => false)

/-- `update_conversation_state`: read the stored record, merge the updates at the
top level of the dict, and save if the merged record validates. Returns the value
now stored (`none` when nothing was written) and the boolean result. -/
def updateConversationState (current : Option (Dict JVal)) (updates : Dict JVal) :
    Option (Dict JVal) × Bool :=
  match current with
  | none => (none, false)
  | some c =>
      if validateConversationState (dictUpdate c updates) then
        (some (dictUpdate c updates), true)
      else (none, false)

/-- Redis lock keys: a map from key to absolute expiry time; a key is live at
`now` while `now < expiry`. -/
abbrev LockStore := Dict ℚ

/-- Whether a key exists (is unexpired) at time `now`. -/
def keyLive (store : LockStore) (k : String) (now : ℚ) : Bool :=
  match store.lookup k with
  | some expiry => now < expiry
  | none => false

/-- The lock key used by `acquire_conversation_lock`. -/
def lockKey (cid : String) : String := "lock:conversation:" ++ cid

/-- `acquire_conversation_lock`: `SET key "locked" NX EX ttl` — succeeds iff no
live key exists, setting expiry `now + ttl`. Returns the new store and whether
the lock was acquired. -/
def acquireConversationLock (store : LockStore) (cid : String) (now ttl : ℚ) :
    LockStore × Bool :=
  if keyLive store (lockKey cid) now then (store, false)
  else (setEntry store (lockKey cid) (now + ttl), true)

/-- `release_conversation_lock`: unconditional `DELETE` of the lock key; returns
whether a live key was removed. -/
def releaseConversationLock (store : LockStore) (cid : String) (now : ℚ) :
    LockStore × Bool :=
  (store.filter (fun kv => kv.1 ≠ lockKey cid), keyLive store (lockKey cid) now)

/-! ## Kafka producer: `KafkaProducer.send_event` -/

/-- Outcome of one `producer.send` attempt. -/
inductive AttemptResult where
  | ok : AttemptResult
  | kafkaErr : String → AttemptResult
  | otherErr : String → AttemptResult
deriving BEq

/-- Observable result of a `send_event` call: return value or escaped exception,
the sleeps performed between attempts, and the number of attempts made. -/
structure SendOutcome where
  result : Except String Bool
  sleeps : List ℚ
  attempts : ℕ

/-- The retry loop of `send_event`: attempt `i` with `k` iterations left out of
`maxRetries`. A `KafkaError` on a non-final attempt sleeps `retry_delay × (i+1)`
and retries; on the final attempt it returns `False`. Any other exception
propagates. -/
def sendLoop (att : ℕ → AttemptResult) (maxRetries : ℕ) (retryDelay : ℚ) :
    ℕ → ℕ → SendOutcome
  | _, 0 => ⟨.ok false, [], 0⟩
  | i, k + 1 =>
      match att i with
      | .ok => ⟨.ok true, [], 1⟩
      | .kafkaErr _ =>
          if i < maxRetries - 1 then
            let rest := sendLoop att maxRetries retryDelay (i + 1) k
            ⟨rest.result, retryDelay * (i + 1) :: rest.sleeps, rest.attempts + 1⟩
          else ⟨.ok false, [], 1⟩
      | .otherErr e => ⟨.error e, [], 1⟩

/-- `send_event`: raises `RuntimeError` when the producer was never started,
otherwise runs the bounded retry loop. -/
def sendEvent (started : Bool) (att : ℕ → AttemptResult) (maxRetries : ℕ)
    (retryDelay : ℚ) : SendOutcome :=
  if started then sendLoop att maxRetries retryDelay 0 maxRetries
  else ⟨.error "Producer not started", [], 0⟩

/-! ## Kafka consumer and event router -/

/-- A consumed Kafka message (value already a string, timestamp broker-assigned). -/
structure KMessage where
  topic : String
  value : String
  timestamp : ℚ
deriving BEq

/-- Behaviour of the registered handler on the message: return a boolean, or
raise with a message. -/
inductive HandlerOutcome where
  | ret : Bool → HandlerOutcome
  | raised : String → HandlerOutcome
deriving BEq

/-- The dead-letter envelope built by `KafkaEventRouter._send_to_dlq`. -/
structure DlqEnvelope where
  original_topic : String
  original_message : String
  error : String
  timestamp : ℚ
deriving BEq

/-- `KafkaEventRouter.route_message`: dispatch to the registered handler
(`none` when no handler is registered for the topic). Returns the handler
result (`false` on a raise or missing handler) together with the DLQ emission,
which happens only when the handler raised: the envelope goes to
`topic ++ ".dlq"`. A failure of the DLQ send itself is swallowed. -/
def routeMessage (handler : Option HandlerOutcome) (msg : KMessage) :
    Bool × Option (String × DlqEnvelope) :=
  match handler with
  | none => (false, none)
  | some (.ret b) => (b, none)
  | some (.raised e) =>
      (false, some (msg.topic ++ ".dlq",
        ⟨msg.topic, msg.value, e, msg.timestamp⟩))

/-- `KafkaConsumer._process_message`: call the registered handler and report its
boolean result; a raise is failure; a missing handler is success. No DLQ send
and no offset commit happen here. -/
def processMessage (handler : Option HandlerOutcome) : Bool :=
  match handler with
  | none => true
  | some (.ret b) => b
  | some (.raised _) => false

/-! ## Conversation turns: `models/conversation.py` and `_process_turn` -/

/-- A conversation turn (`ConversationTurn` / the dict built by `_process_turn`).
`tokens` and `latency_ms` are optional in the pydantic model. -/
structure Turn where
  turn_number : ℕ
  model : String
  role : String
  content : String
  timestamp : ℚ
  latency_ms : Option ℕ
  tokens : Option ℕ
deriving BEq

/-- The metadata fields of a `Conversation` relevant to the record invariants. -/
structure ConvMetadata where
  total_turns : ℕ
  total_tokens : ℕ
  duration_seconds : ℚ
  models_used : List String
  status : String
deriving BEq

/-- A conversation record (`Conversation`, also the dict state the manager keeps). -/
structure Conversation where
  conversation_id : String
  topic : String
  turns : List Turn
  metadata : ConvMetadata
deriving BEq

/-- `Conversation.add_turn`: renumber the turn to `len(turns)+1`, append it, set
`total_turns` to the new length, add the tokens (absent counted 0), append the
model if new, and recompute the duration once two turns exist. -/
def addTurn (c : Conversation) (t : Turn) : Conversation :=
  let t' := { t with turn_number := c.turns.length + 1 }
  let turns' := c.turns ++ [t']
  let md := c.metadata
  let md' :=
    { md with
      total_turns := turns'.length,
      total_tokens := md.total_tokens + t'.tokens.getD 0,
      models_used :=
        if t'.model ∈ md.models_used then md.models_used
        else md.models_used ++ [t'.model],
      duration_seconds :=
        if 2 ≤ turns'.length then
          (turns'.getLast?.getD t').timestamp - (turns'.head?.getD t').timestamp
        else md.duration_seconds }
  { c with turns := turns', metadata := md' }

/-- The response dict returned by an LLM client, as `_process_turn` reads it. -/
structure LLMResponse where
  model : String
  content : String
  tokens : Option ℕ
  latency_ms : Option ℕ
deriving BEq

/-- The turn dict built by `_process_turn`: `turn_number = len(turns)+1`,
`role = "assistant_" + (turn_number mod 2 + 1)`, `tokens`/`latency_ms`
defaulted to 0 by `response.get`. -/
def buildTurnData (c : Conversation) (resp : LLMResponse) (now : ℚ) : Turn :=
  let turnNumber := c.turns.length + 1
  { turn_number := turnNumber,
    model := resp.model,
    role := "assistant_" ++ toString (turnNumber % 2 + 1),
    content := resp.content,
    timestamp := now,
    latency_ms := some (resp.latency_ms.getD 0),
    tokens := some (resp.tokens.getD 0) }

/-- The state update computed by a successful `_process_turn`: append the turn,
set `total_turns` to the new length, add the tokens to `total_tokens`, union the
model into `models_used`, set status `in_progress`. -/
def processTurnUpdate (c : Conversation) (resp : LLMResponse) (now : ℚ) :
    Conversation :=
  let turnData := buildTurnData c resp now
  let newTurns := c.turns ++ [turnData]
  { c with
    turns := newTurns,
    metadata :=
      { c.metadata with
        total_turns := newTurns.length,
        total_tokens := c.metadata.total_tokens + resp.tokens.getD 0,
        models_used := (c.metadata.models_used ++ [resp.model]).dedup,
        status := "in_progress" } }

/-- The record-metadata invariant of §8 of the spec: `total_turns` is the number
of turns, `total_tokens` the sum of token counts (absent as 0), and turn `i`
carries number `i+1`. -/
def recordInv (c : Conversation) : Prop :=
  c.metadata.total_turns = c.turns.length ∧
  c.metadata.total_tokens = (c.turns.map (fun t => t.tokens.getD 0)).sum ∧
  ∀ i : Fin c.turns.length, (c.turns.get i).turn_number = i.val + 1

/-! ## Repetition detection: `ConversationManager._detect_repetition` -/

/-- Python `content.split()`: split on whitespace, dropping empty pieces. -/
def pyWords (s : String) : List String :=
  (s.split Char.isWhitespace).filter (fun w => w ≠ "")

/-- The word set of an (already lowercased) content string, as a deduplicated
list; its length is the size of the Python `set`. -/
def wordSet (s : String) : List String := (pyWords s).dedup

/-- `len(words1.intersection(words2))` for deduplicated word lists. -/
def overlapCount (w1 w2 : List String) : ℕ :=
  (w1.filter (fun x => x ∈ w2)).length

/-- The inner check of `_detect_repetition` on one pair of contents: both word
sets larger than 10 words and overlap over the smaller set strictly above 0.7. -/
def similarPair (c1 c2 : String) : Bool :=
  if (wordSet c1).length > 10 ∧ (wordSet c2).length > 10 then
    decide ((overlapCount (wordSet c1) (wordSet c2) : ℚ) /
      (min (wordSet c1).length (wordSet c2).length : ℚ) > 7 / 10)
  else false

/-- The nested pair loop of `_detect_repetition`: some pair `i < j` similar. -/
def anySimilarPair : List String → Bool
  | [] => false
  | c :: rest => rest.any (fun c2 => similarPair c c2) || anySimilarPair rest

/-- The `contents` list of `_detect_repetition`: the lowercased contents of
`turns[-4:]`. -/
def lastFourContents (turns : List Turn) : List String :=
  (turns.drop (turns.length - 4)).map (fun t => t.content.toLower)

/-- `_detect_repetition`: false below four turns, else check every unordered
pair of the last four lowercased contents. -/
def detectRepetition (turns : List Turn) : Bool :=
  if turns.length < 4 then false
  else anySimilarPair (lastFourContents turns)

/-- One pair of contents as the specification describes it: both whitespace
word sets larger than 10 and overlap over the smaller set strictly above 0.7. -/
def pairSimilarProp (x y : String) : Prop :=
  10 < (wordSet x).length ∧ 10 < (wordSet y).length ∧
  (overlapCount (wordSet x) (wordSet y) : ℚ) /
    (min (wordSet x).length (wordSet y).length : ℚ) > 7 / 10

/-- The repetition property in the words of the specification: at least four
turns, and some unordered pair of the last four lowercased, whitespace-tokenized
contents is similar in the above sense. -/
def repetitionSpec (turns : List Turn) : Prop :=
  4 ≤ turns.length ∧
  ∃ i j : ℕ, i < j ∧ j < 4 ∧
    pairSimilarProp ((lastFourContents turns).getD i "")
      ((lastFourContents turns).getD j "")

/-! ## Theorems -/

/-- Claim C1 counterexample: take the default threshold 5 and timeout 60 and a
breaker opened at time 0 with 5 failures. At exactly 60 elapsed seconds the call
still fails fast; at 61 the probe is let through; when that probe fails, the
very next call at time 62 is again allowed instead of failing fast with
`circuit_open`, contrary to the claim. -/
theorem circuitBreaker_probe_counterexample :
    (checkCircuitBreaker ⟨5, 0, true⟩ 60 60).2 = false ∧
    (checkCircuitBreaker ⟨5, 0, true⟩ 61 60).2 = true ∧
    (checkCircuitBreaker
      (recordFailure (checkCircuitBreaker ⟨5, 0, true⟩ 61 60).1 61 5)
      62 60).2 = true := by
  refine ⟨?_, ?_, ?_⟩ <;> norm_num [checkCircuitBreaker, recordFailure]

/-- Claim C1 (amended): for an open breaker, once strictly more than `T` seconds
have passed since the last recorded failure the next call is allowed and the
counter is zeroed; a success leaves the breaker closed with counter 0; a probe
failure merely sets the counter to 1 and, as long as the threshold is at least
2, leaves the breaker closed, so the immediately following call is again allowed
rather than failing fast. -/
theorem circuitBreaker_halfOpen (s : BreakerState) (now now2 now3 T : ℚ)
    (threshold : ℕ) (hopen : s.isOpen = true) (ht : now - s.lastFailure > T)
    (hthr : 2 ≤ threshold) :
    (checkCircuitBreaker s now T).2 = true ∧
    (checkCircuitBreaker s now T).1.failures = 0 ∧
    (checkCircuitBreaker s now T).1.isOpen = false ∧
    (recordSuccess (checkCircuitBreaker s now T).1).failures = 0 ∧
    (recordSuccess (checkCircuitBreaker s now T).1).isOpen = false ∧
    (recordFailure (checkCircuitBreaker s now T).1 now2 threshold).failures = 1 ∧
    (recordFailure (checkCircuitBreaker s now T).1 now2 threshold).isOpen = false ∧
    (checkCircuitBreaker
      (recordFailure (checkCircuitBreaker s now T).1 now2 threshold) now3 T).2 =
      true := by
  have hcheck : checkCircuitBreaker s now T =
      ({ s with isOpen := false, failures := 0 }, true) := by
    simp [checkCircuitBreaker, hopen, ht]
  have hthr1 : ¬ (1 ≥ threshold) := by omega
  rw [hcheck]
  refine ⟨rfl, rfl, rfl, rfl, rfl, ?_, ?_, ?_⟩
  · simp [recordFailure]
  · simp [recordFailure, hthr1]
  · simp [checkCircuitBreaker, recordFailure, hthr1]

/-- Claim C1 witness: the amended breaker behaviour at the default settings,
breaker opened at time 0, probe at 61, second failure at 61, next call at 62. -/
theorem circuitBreaker_halfOpen_witness :
    (checkCircuitBreaker ⟨5, 0, true⟩ 61 60).2 = true ∧
    (checkCircuitBreaker ⟨5, 0, true⟩ 61 60).1.failures = 0 ∧
    (checkCircuitBreaker ⟨5, 0, true⟩ 61 60).1.isOpen = false ∧
    (recordSuccess (checkCircuitBreaker ⟨5, 0, true⟩ 61 60).1).failures = 0 ∧
    (recordSuccess (checkCircuitBreaker ⟨5, 0, true⟩ 61 60).1).isOpen = false ∧
    (recordFailure (checkCircuitBreaker ⟨5, 0, true⟩ 61 60).1 61 5).failures = 1 ∧
    (recordFailure (checkCircuitBreaker ⟨5, 0, true⟩ 61 60).1 61 5).isOpen = false ∧
    (checkCircuitBreaker
      (recordFailure (checkCircuitBreaker ⟨5, 0, true⟩ 61 60).1 61 5) 62 60).2 =
      true :=
  circuitBreaker_halfOpen ⟨5, 0, true⟩ 61 61 62 60 5 rfl (by norm_num) (by norm_num)

/-- Claim C6: a request is admitted iff, after discarding the tokens that fell
out of the window, fewer than `limit` tokens remain; an admitted request appends
the current time; with the window count at exactly `limit` the request is
refused; and at any later time at which the window count has dropped below
`limit` a request is admitted. -/
theorem rateLimit_slidingWindow (tokens : List ℚ) (now window : ℚ) (limit : ℕ) :
    ((checkRateLimit tokens now window limit).2 = true ↔
      (tokens.filter (fun t => now - window < t)).length < limit) ∧
    ((checkRateLimit tokens now window limit).2 = true →
      (checkRateLimit tokens now window limit).1 =
        tokens.filter (fun t => now - window < t) ++ [now]) ∧
    ((tokens.filter (fun t => now - window < t)).length = limit →
      (checkRateLimit tokens now window limit).2 = false) ∧
    (∀ later : ℚ,
      (tokens.filter (fun t => later - window < t)).length < limit →
      (checkRateLimit tokens later window limit).2 = true) := by
  refine ⟨?_, ?_, ?_, ?_⟩
  · by_cases h : limit ≤ (tokens.filter (fun t => now - window < t)).length
    · simp [checkRateLimit, h]
    · simp [checkRateLimit, h]
      omega
  · by_cases h : limit ≤ (tokens.filter (fun t => now - window < t)).length <;>
      simp [checkRateLimit, h]
  · intro h
    have h2 : limit ≤ (tokens.filter (fun t => now - window < t)).length := by
      omega
    simp [checkRateLimit, h2]
  · intro later h
    have h2 : ¬ limit ≤ (tokens.filter (fun t => later - window < t)).length := by
      omega
    simp [checkRateLimit, h2]

/-- Claim C6 witness: one token at time 0, window 60, limit 1: refused at time
30 (token still in window), admitted at time 100 (token aged out). -/
theorem rateLimit_slidingWindow_witness :
    (checkRateLimit [(0 : ℚ)] 30 60 1).2 = false ∧
    (checkRateLimit [(0 : ℚ)] 100 60 1).2 = true := by
  constructor
  · refine (rateLimit_slidingWindow [(0 : ℚ)] 30 60 1).2.2.1 ?_
    norm_num [List.filter]
  · refine (rateLimit_slidingWindow [(0 : ℚ)] 30 60 1).2.2.2 100 ?_
    norm_num [List.filter]

/-- Claim C8: `acquire_conversation_lock` succeeds iff no live lock key exists
at the call time; while a holder has an unexpired, unreleased lock the call
returns false and leaves the store unchanged; a successful call creates the key
`lock:conversation:` followed by the id, expiring at `now + ttl`. -/
theorem lock_mutual_exclusion (store : LockStore) (cid : String) (now ttl : ℚ) :
    ((acquireConversationLock store cid now ttl).2 = true ↔
      keyLive store (lockKey cid) now = false) ∧
    (keyLive store (lockKey cid) now = true →
      acquireConversationLock store cid now ttl = (store, false)) ∧
    ((acquireConversationLock store cid now ttl).2 = true →
      (acquireConversationLock store cid now ttl).1.lookup (lockKey cid) =
        some (now + ttl)) := by
  by_cases h : keyLive store (lockKey cid) now <;>
    simp [acquireConversationLock, h, lookup_setEntry_self]

/-- Claim C8 witness: a live lock for id `c1` at time 10 (expiry 20) blocks a
second acquire; with no entry the acquire succeeds. -/
theorem lock_mutual_exclusion_witness :
    acquireConversationLock [("lock:conversation:c1", (20 : ℚ))] "c1" 10 30 =
      ([("lock:conversation:c1", (20 : ℚ))], false) :=
  (lock_mutual_exclusion [("lock:conversation:c1", (20 : ℚ))] "c1" 10 30).2.1
    (by decide)

/-- Claim C5 counterexample: a handler that returns `false` on a
`conversation.new` message is a failure, yet `route_message` emits no
dead-letter envelope at all, contrary to the claim that every handler failure
is dead-lettered. -/
theorem dlq_return_false_counterexample :
    routeMessage (some (.ret false)) ⟨"conversation.new", "m", 0⟩ =
      (false, none) := rfl

/-- Claim C5 (amended): only a raising handler is dead-lettered — the router
then emits exactly the envelope `{original_topic, original_message, error,
timestamp}` to `original_topic ++ ".dlq"` and reports failure; a handler
returning `false` reports failure with no DLQ emission; a message without a
registered handler yields `false` from the router but success from the consumer
dispatch; neither function commits an offset. -/
theorem dlq_on_raise_only (msg : KMessage) (e : String) (b : Bool) :
    routeMessage (some (.raised e)) msg =
      (false, some (msg.topic ++ ".dlq",
        ⟨msg.topic, msg.value, e, msg.timestamp⟩)) ∧
    routeMessage (some (.ret b)) msg = (b, none) ∧
    routeMessage none msg = (false, none) ∧
    processMessage (some (.raised e)) = false ∧
    processMessage (some (.ret b)) = b ∧
    processMessage none = true :=
  ⟨rfl, rfl, rfl, rfl, rfl, rfl⟩

/-- Claim C9 counterexample: calling `send_event` on a producer that was never
started raises `RuntimeError` instead of returning a boolean, so an exception
does escape to the caller. -/
theorem sendEvent_unstarted_counterexample :
    (sendEvent false (fun _ => .ok) 3 1).result =
      Except.error "Producer not started" := rfl

/-- The sleep sequence the claim describes: starting after attempt `i + 1`,
`count` sleeps of `retryDelay × (attempt number)`. -/
def expectedSleeps (retryDelay : ℚ) (i count : ℕ) : List ℚ :=
  (List.range count).map (fun n : ℕ => retryDelay * ((i : ℚ) + (n : ℚ) + 1))

theorem expectedSleeps_succ (retryDelay : ℚ) (i a : ℕ) :
    expectedSleeps retryDelay i (a + 1) =
      retryDelay * ((i : ℚ) + 1) :: expectedSleeps retryDelay (i + 1) a := by
  unfold expectedSleeps
  rw [List.range_succ_eq_map, List.map_cons, List.map_map]
  congr 1
  · norm_num
  · refine List.map_congr_left ?_
    intro n _
    simp only [Function.comp_apply]
    push_cast
    ring

/-- Number of attempts is at least one whenever at least one loop iteration
remains. -/
theorem sendLoop_attempts_pos (att : ℕ → AttemptResult) (maxRetries : ℕ)
    (retryDelay : ℚ) (i k : ℕ) :
    1 ≤ (sendLoop att maxRetries retryDelay i (k + 1)).attempts := by
  cases hatt : att i <;> simp [sendLoop, hatt]
  split <;> simp

/-- Retry-loop invariant of `send_event`: starting at attempt `i` with `k`
iterations left, if no attempt in range fails with a non-Kafka exception, the
loop returns a boolean, makes at most `k` attempts, and sleeps exactly
`retryDelay * (i + n + 1)` after the `n`-th failed non-final attempt. -/
theorem sendLoop_spec (att : ℕ → AttemptResult) (maxRetries : ℕ)
    (retryDelay : ℚ) :
    ∀ k i, i + k = maxRetries →
    (∀ m, i ≤ m → m < maxRetries → ∀ e, att m ≠ .otherErr e) →
    (∃ b : Bool, (sendLoop att maxRetries retryDelay i k).result = .ok b) ∧
    (sendLoop att maxRetries retryDelay i k).attempts ≤ k ∧
    (sendLoop att maxRetries retryDelay i k).sleeps =
      expectedSleeps retryDelay i
        ((sendLoop att maxRetries retryDelay i k).attempts - 1) := by
  intro k
  induction k with
  | zero =>
      intro i _ _
      exact ⟨⟨false, rfl⟩, by simp [sendLoop], by simp [sendLoop, expectedSleeps]⟩
  | succ k ih =>
      intro i hik hatt
      have hi : i < maxRetries := by omega
      cases h : att i with
      | ok =>
          refine ⟨⟨true, ?_⟩, ?_, ?_⟩ <;> simp [sendLoop, h, expectedSleeps]
      | otherErr e => exact absurd h (hatt i le_rfl hi e)
      | kafkaErr e =>
          by_cases hfin : i < maxRetries - 1
          · have hk : 1 ≤ k := by omega
            have hrest := ih (i + 1) (by omega)
              (fun m hm hm2 e2 => hatt m (by omega) hm2 e2)
            obtain ⟨⟨b, hb⟩, hle, hsleeps⟩ := hrest
            have hpos : 1 ≤ (sendLoop att maxRetries retryDelay (i + 1) k).attempts := by
              obtain ⟨k', rfl⟩ := Nat.exists_eq_add_of_le' hk
              exact sendLoop_attempts_pos att maxRetries retryDelay (i + 1) k'
            obtain ⟨a, ha⟩ := Nat.exists_eq_add_of_le' hpos
            refine ⟨⟨b, ?_⟩, ?_, ?_⟩
            · simp [sendLoop, h, hfin, hb]
            · simp only [sendLoop, h, hfin, if_pos]
              omega
            · simp only [sendLoop, h, hfin, if_pos]
              rw [hsleeps, ha, Nat.add_sub_cancel, Nat.add_sub_cancel,
                expectedSleeps_succ]
          · refine ⟨⟨false, ?_⟩, ?_, ?_⟩ <;>
              simp [sendLoop, h, hfin, expectedSleeps]

/-- Claim C9 (amended): provided the producer was started and every failing
attempt fails with a `KafkaError`, `send_event` returns a boolean (no exception
escapes), makes at most `maxRetries` attempts, and sleeps `retryDelay × n`
after the `n`-th attempt (n = 1, 2, …) between consecutive attempts. An
unstarted producer instead raises `RuntimeError`, and a non-Kafka exception
propagates. -/
theorem sendEvent_bounded_retry (att : ℕ → AttemptResult) (maxRetries : ℕ)
    (retryDelay : ℚ)
    (h : ∀ m, m < maxRetries → ∀ e, att m ≠ .otherErr e) :
    (∃ b : Bool, (sendEvent true att maxRetries retryDelay).result = .ok b) ∧
    (sendEvent true att maxRetries retryDelay).attempts ≤ maxRetries ∧
    (sendEvent true att maxRetries retryDelay).sleeps =
      expectedSleeps retryDelay 0
        ((sendEvent true att maxRetries retryDelay).attempts - 1) :=
  sendLoop_spec att maxRetries retryDelay maxRetries 0 (by omega)
    (fun m _ hm2 e => h m hm2 e)

/-- Claim C9 witness: three attempts where the first two fail with KafkaError
and the third succeeds, default retry settings: returns a boolean, at most
three attempts, sleeps as specified. -/
theorem sendEvent_bounded_retry_witness :
    (∃ b : Bool,
      (sendEvent true
        (fun m => if m < 2 then .kafkaErr "boom" else .ok) 3 1).result = .ok b) ∧
    (sendEvent true
      (fun m => if m < 2 then .kafkaErr "boom" else .ok) 3 1).attempts ≤ 3 ∧
    (sendEvent true
      (fun m => if m < 2 then .kafkaErr "boom" else .ok) 3 1).sleeps =
      expectedSleeps 1 0
        ((sendEvent true
          (fun m => if m < 2 then .kafkaErr "boom" else .ok) 3 1).attempts - 1) :=
  sendEvent_bounded_retry (fun m => if m < 2 then .kafkaErr "boom" else .ok) 3 1
    (by intro m hm e; interval_cases m <;> simp)

/-- Helper: the status stored by the normal terminal write. -/
theorem metaStatus_completedMetadata (meta : Dict JVal) (endTime duration : ℚ) :
    metaStatus (completedMetadata meta endTime duration) = some "completed" := by
  have hchain : completedMetadata meta endTime duration =
      setEntry (setEntry (setEntry meta "status" (.jstr "completed"))
        "completed_at" (.jnum endTime)) "duration_seconds" (.jnum duration) := rfl
  unfold metaStatus
  rw [hchain, lookup_setEntry_other _ _ _ _ (by decide),
    lookup_setEntry_other _ _ _ _ (by decide), lookup_setEntry_self]

/-- Helper: the normal terminal write never touches `completion_reason`. -/
theorem completedMetadata_completionReason (meta : Dict JVal)
    (endTime duration : ℚ) :
    (completedMetadata meta endTime duration).lookup "completion_reason" =
      meta.lookup "completion_reason" := by
  have hchain : completedMetadata meta endTime duration =
      setEntry (setEntry (setEntry meta "status" (.jstr "completed"))
        "completed_at" (.jnum endTime)) "duration_seconds" (.jnum duration) := rfl
  rw [hchain, lookup_setEntry_other _ _ _ _ (by decide),
    lookup_setEntry_other _ _ _ _ (by decide),
    lookup_setEntry_other _ _ _ _ (by decide)]

/-- Helper: the status stored by a successful turn update. -/
theorem metaStatus_inProgressMetadata (meta : Dict JVal)
    (totalTurns totalTokens : ℕ) (models : List String) :
    metaStatus (inProgressMetadata meta totalTurns totalTokens models) =
      some "in_progress" := by
  have hchain : inProgressMetadata meta totalTurns totalTokens models =
      setEntry (setEntry (setEntry (setEntry meta "total_turns"
        (.jnum totalTurns)) "total_tokens" (.jnum totalTokens))
        "models_used" (.jarr (models.map .jstr))) "status"
        (.jstr "in_progress") := rfl
  unfold metaStatus
  rw [hchain, lookup_setEntry_self]

/-- Claim C2 counterexample: on the error path the Manager stores status
`"error"`, not `"failed"`, and stores no `completion_reason`; the normal path
with a fresh metadata dict also stores no `completion_reason`. -/
theorem terminal_status_counterexample :
    metaStatus (errorMetadata "boom") = some "error" ∧
    metaStatus (errorMetadata "boom") ≠ some "failed" ∧
    (errorMetadata "boom").lookup "completion_reason" = none ∧
    (completedMetadata (initialMetadata 0) 5 5).lookup "completion_reason" =
      none :=
  ⟨rfl, by decide, rfl, rfl⟩

/-- Claim C2 (amended): when the per-conversation loop terminates, the Manager
writes status `completed` on the normal paths and `error` on the error path;
neither terminal write records a `completion_reason` (the normal path merely
preserves whatever metadata keys were already present). -/
theorem terminal_status_write (meta : Dict JVal) (endTime duration : ℚ)
    (e : String) (hcr : meta.lookup "completion_reason" = none) :
    metaStatus (completedMetadata meta endTime duration) = some "completed" ∧
    (completedMetadata meta endTime duration).lookup "completion_reason" =
      none ∧
    metaStatus (errorMetadata e) = some "error" ∧
    (errorMetadata e).lookup "completion_reason" = none := by
  refine ⟨metaStatus_completedMetadata meta endTime duration, ?_, rfl, rfl⟩
  rw [completedMetadata_completionReason, hcr]

/-- Claim C2 witness: the terminal writes on a fresh record created at time 0,
finished at time 5 with error message `boom`. -/
theorem terminal_status_write_witness :
    metaStatus (completedMetadata (initialMetadata 0) 5 5) = some "completed" ∧
    (completedMetadata (initialMetadata 0) 5 5).lookup "completion_reason" =
      none ∧
    metaStatus (errorMetadata "boom") = some "error" ∧
    (errorMetadata "boom").lookup "completion_reason" = none :=
  terminal_status_write (initialMetadata 0) 5 5 "boom" rfl

/-- The six statuses the claim allows. -/
def claimedStatusSet : List String :=
  ["initializing", "in_progress", "completed", "failed", "timeout", "stopped"]

/-- The five statuses the Manager actually stores. -/
def managerStatusSet : List String :=
  ["started", "in_progress", "completed", "error", "stopped"]

/-- Claim C3 counterexample: `start_new_conversation` stores status `"started"`,
which is outside the claimed six-value set (and differs from `initializing`);
the error path stores `"error"`, also outside the claimed set. -/
theorem status_lifecycle_counterexample :
    metaStatus (initialMetadata 0) = some "started" ∧
    "started" ∉ claimedStatusSet ∧
    metaStatus (errorMetadata "boom") = some "error" ∧
    "error" ∉ claimedStatusSet :=
  ⟨rfl, by decide, rfl, by decide⟩

/-- Claim C3 (amended): every status the Manager stores is drawn from
{started, in_progress, completed, error, stopped}; the record created by
`start_new_conversation` has status `started`. -/
theorem status_lifecycle_amended (meta : Dict JVal)
    (createdAt endTime duration : ℚ) (e : String)
    (totalTurns totalTokens : ℕ) (models : List String) :
    metaStatus (initialMetadata createdAt) = some "started" ∧
    metaStatus (inProgressMetadata meta totalTurns totalTokens models) =
      some "in_progress" ∧
    metaStatus (completedMetadata meta endTime duration) = some "completed" ∧
    metaStatus (errorMetadata e) = some "error" ∧
    metaStatus stoppedMetadata = some "stopped" ∧
    (∀ s ∈ (["started", "in_progress", "completed", "error",
      "stopped"] : List String), s ∈ managerStatusSet) :=
  ⟨rfl, metaStatus_inProgressMetadata meta totalTurns totalTokens models,
    metaStatus_completedMetadata meta endTime duration, rfl, rfl, by decide⟩

/-- Claim C3 witness: the five Manager writes at concrete arguments. -/
theorem status_lifecycle_amended_witness :
    metaStatus (initialMetadata 0) = some "started" ∧
    metaStatus (inProgressMetadata [] 1 2 ["claude-3-sonnet"]) =
      some "in_progress" ∧
    metaStatus (completedMetadata [] 5 5) = some "completed" ∧
    metaStatus (errorMetadata "boom") = some "error" ∧
    metaStatus stoppedMetadata = some "stopped" ∧
    (∀ s ∈ (["started", "in_progress", "completed", "error",
      "stopped"] : List String), s ∈ managerStatusSet) :=
  status_lifecycle_amended [] 0 5 5 "boom" 1 2 ["claude-3-sonnet"]

/-- The update dict passed by `stop_conversation`. -/
def stopUpdates : Dict JVal := [("metadata", .jobj stoppedMetadata)]

/-- The update dict passed by the error path of `_process_conversation`. -/
def errorUpdates (e : String) : Dict JVal :=
  [("metadata", .jobj (errorMetadata e))]

/-- Helper: replacing `metadata` leaves the validated fields untouched. -/
theorem validate_setEntry_metadata (rec : Dict JVal) (v : JVal) :
    validateConversationState (setEntry rec "metadata" v) =
      validateConversationState rec := by
  unfold validateConversationState
  rw [lookup_setEntry_other _ _ _ _ (by decide),
    lookup_setEntry_other _ _ _ _ (by decide),
    lookup_setEntry_other _ _ _ _ (by decide)]

/-- Claim C10: `update_conversation_state` merges only at the top level, so the
partial metadata dicts written by `stop_conversation` and by the error path
replace the stored `metadata` wholesale — afterwards the record's metadata is
exactly `{status: stopped}` respectively `{status: error, error: e}`, with the
previous `total_turns`, `total_tokens` and `models_used` discarded. -/
theorem update_topLevel_merge (rec : Dict JVal) (e : String)
    (hvalid : validateConversationState rec = true) :
    updateConversationState (some rec) stopUpdates =
      (some (setEntry rec "metadata" (.jobj stoppedMetadata)), true) ∧
    (setEntry rec "metadata" (.jobj stoppedMetadata)).lookup "metadata" =
      some (.jobj [("status", .jstr "stopped")]) ∧
    updateConversationState (some rec) (errorUpdates e) =
      (some (setEntry rec "metadata" (.jobj (errorMetadata e))), true) ∧
    (setEntry rec "metadata" (.jobj (errorMetadata e))).lookup "metadata" =
      some (.jobj [("status", .jstr "error"), ("error", .jstr e)]) := by
  have h1 : dictUpdate rec stopUpdates =
      setEntry rec "metadata" (.jobj stoppedMetadata) := rfl
  have h2 : dictUpdate rec (errorUpdates e) =
      setEntry rec "metadata" (.jobj (errorMetadata e)) := rfl
  refine ⟨?_, lookup_setEntry_self rec "metadata" _, ?_,
    lookup_setEntry_self rec "metadata" _⟩
  · simp only [updateConversationState, h1, validate_setEntry_metadata, hvalid]
    simp
  · simp only [updateConversationState, h2, validate_setEntry_metadata, hvalid]
    simp

/-- Claim C10 witness: stopping a freshly created record leaves its metadata as
exactly `{status: stopped}`. -/
theorem update_topLevel_merge_witness :
    (setEntry (initialConversationState "c1" "t" "hn" "u" 0) "metadata"
      (.jobj stoppedMetadata)).lookup "metadata" =
      some (.jobj [("status", .jstr "stopped")]) :=
  (update_topLevel_merge (initialConversationState "c1" "t" "hn" "u" 0) "e"
    rfl).2.1

/-- Helper: appending one turn numbered `len + 1` preserves the numbering
invariant. -/
theorem turnNumbers_concat (ts : List Turn) (t : Turn)
    (h : ∀ i : Fin ts.length, (ts.get i).turn_number = i.val + 1)
    (ht : t.turn_number = ts.length + 1) :
    ∀ i : Fin (ts ++ [t]).length,
      ((ts ++ [t]).get i).turn_number = i.val + 1 := by
  intro i
  have hi : i.val < ts.length + 1 := by simpa using i.isLt
  by_cases hlt : i.val < ts.length
  · rw [List.get_eq_getElem, List.getElem_append_left hlt]
    exact h ⟨i.val, hlt⟩
  · have heq : i.val = ts.length := by omega
    rw [List.get_eq_getElem, List.getElem_concat_length _ _ _ heq, ht, heq]

/-- Claim C4: if a conversation record satisfies the metadata invariants
(`total_turns` is the turn count, `total_tokens` the token sum with absent
counted 0, turn `i` numbered `i+1`), then it still satisfies them after
`Conversation.add_turn` and after the state update of a successful
`_process_turn`. -/
theorem record_metadata_invariant (c : Conversation) (t : Turn)
    (resp : LLMResponse) (now : ℚ) (h : recordInv c) :
    recordInv (addTurn c t) ∧ recordInv (processTurnUpdate c resp now) := by
  obtain ⟨h1, h2, h3⟩ := h
  constructor
  · refine ⟨by simp [addTurn], ?_, ?_⟩
    · simp [addTurn, h2]
    · intro i
      exact turnNumbers_concat c.turns
        { t with turn_number := c.turns.length + 1 } h3 rfl i
  · refine ⟨by simp [processTurnUpdate], ?_, ?_⟩
    · simp [processTurnUpdate, buildTurnData, h2]
    · intro i
      exact turnNumbers_concat c.turns (buildTurnData c resp now) h3 rfl i

/-- An empty conversation record with consistent metadata. -/
def emptyConv : Conversation :=
  ⟨"c1", "renewables", [], ⟨0, 0, 0, [], "started"⟩⟩

theorem recordInv_emptyConv : recordInv emptyConv :=
  ⟨rfl, rfl, fun i => absurd i.isLt (by simp [emptyConv])⟩

/-- Claim C4 witness: the invariant after adding a first turn and after a first
`_process_turn` update on the empty record. -/
theorem record_metadata_invariant_witness :
    recordInv (addTurn emptyConv
      ⟨1, "claude-3-sonnet", "assistant_1", "hello world", 0, some 5, some 7⟩) ∧
    recordInv (processTurnUpdate emptyConv ⟨"gemini-pro", "hi", some 4, none⟩ 10) :=
  record_metadata_invariant emptyConv
    ⟨1, "claude-3-sonnet", "assistant_1", "hello world", 0, some 5, some 7⟩
    ⟨"gemini-pro", "hi", some 4, none⟩ 10 recordInv_emptyConv

/-- Helper: a list of length four is literally four elements. -/
theorem list_eq_four {α : Type} (l : List α) (h : l.length = 4) :
    ∃ a b c d, l = [a, b, c, d] := by
  cases l with
  | nil => simp at h
  | cons a l1 =>
    cases l1 with
    | nil => simp at h
    | cons b l2 =>
      cases l2 with
      | nil => simp at h
      | cons c l3 =>
        cases l3 with
        | nil => simp at h
        | cons d l4 =>
          cases l4 with
          | nil => exact ⟨a, b, c, d, rfl⟩
          | cons e l5 => simp [List.length_cons] at h

/-- Helper: the boolean pair check agrees with the spec-side pair property. -/
theorem similarPair_iff (x y : String) :
    similarPair x y = true ↔ pairSimilarProp x y := by
  unfold similarPair pairSimilarProp
  by_cases h : (wordSet x).length > 10 ∧ (wordSet y).length > 10
  · rw [if_pos h]
    simp [h.1, h.2]
  · rw [if_neg h]
    simp only [Bool.false_eq_true, false_iff]
    exact fun habs => h ⟨habs.1, habs.2.1⟩

/-- Helper: the nested loop on four contents is the six-fold disjunction. -/
theorem anySimilarPair_four (a b c d : String) :
    anySimilarPair [a, b, c, d] = true ↔
      (similarPair a b = true ∨ similarPair a c = true ∨
       similarPair a d = true ∨ similarPair b c = true ∨
       similarPair b d = true ∨ similarPair c d = true) := by
  simp [anySimilarPair]
  tauto

/-- Claim C7: `_detect_repetition` returns false for fewer than four turns, and
in general returns true exactly when some unordered pair of the last four
lowercased, whitespace-tokenized contents has both word sets larger than 10
words and intersection over the smaller set strictly above 0.7. -/
theorem repetition_predicate (turns : List Turn) :
    (turns.length < 4 → detectRepetition turns = false) ∧
    (detectRepetition turns = true ↔ repetitionSpec turns) := by
  refine ⟨fun h => by simp [detectRepetition, h], ?_⟩
  by_cases h4 : turns.length < 4
  · rw [detectRepetition, if_pos h4]
    simp only [Bool.false_eq_true, false_iff]
    rintro ⟨hlen, -⟩
    omega
  · have hlen : (lastFourContents turns).length = 4 := by
      simp [lastFourContents]
      omega
    obtain ⟨a, b, c, d, habcd⟩ := list_eq_four _ hlen
    rw [detectRepetition, if_neg h4, habcd, anySimilarPair_four]
    unfold repetitionSpec
    rw [habcd]
    constructor
    · rintro (h | h | h | h | h | h)
      · exact ⟨by omega, 0, 1, by omega, by omega,
          by simpa using (similarPair_iff a b).mp h⟩
      · exact ⟨by omega, 0, 2, by omega, by omega,
          by simpa using (similarPair_iff a c).mp h⟩
      · exact ⟨by omega, 0, 3, by omega, by omega,
          by simpa using (similarPair_iff a d).mp h⟩
      · exact ⟨by omega, 1, 2, by omega, by omega,
          by simpa using (similarPair_iff b c).mp h⟩
      · exact ⟨by omega, 1, 3, by omega, by omega,
          by simpa using (similarPair_iff b d).mp h⟩
      · exact ⟨by omega, 2, 3, by omega, by omega,
          by simpa using (similarPair_iff c d).mp h⟩
    · rintro ⟨-, i, j, hij, hj, hp⟩
      interval_cases j <;> interval_cases i <;>
        simp only [List.getD_cons_zero, List.getD_cons_succ] at hp <;>
        (first
          | exact Or.inl ((similarPair_iff _ _).mpr hp)
          | exact Or.inr (Or.inl ((similarPair_iff _ _).mpr hp))
          | exact Or.inr (Or.inr (Or.inl ((similarPair_iff _ _).mpr hp)))
          | exact Or.inr (Or.inr (Or.inr (Or.inl ((similarPair_iff _ _).mpr hp))))
          | exact Or.inr (Or.inr (Or.inr (Or.inr
              (Or.inl ((similarPair_iff _ _).mpr hp)))))
          | exact Or.inr (Or.inr (Or.inr (Or.inr
              (Or.inr ((similarPair_iff _ _).mpr hp))))))

/-- Claim C7 witness: no repetition is reported on an empty turn list. -/
theorem repetition_predicate_witness : detectRepetition [] = false :=
  (repetition_predicate []).1 (by simp)

end Chimera
